import Mathlib

/-!
Verification development for the image-generation core of the
"Le Mixologue Augmenté" repository (Rhadepakreth/mns_eval).

The repository ships its backend behaviour in documentation files
(src/unnamed/part_001 quotes the orchestrator method generate_image and
the color_map / style_keywords lookup tables) together with the React
frontend components (src/frontend/src/components).  The Python service
modules themselves (mistral_service.py, stability_ai_service.py) are not
part of the source tree, so the parts of the pipeline that only the spec
and the documentation describe are modelled here faithfully from those
words; definitions taken from code quoted verbatim in the tree say so in
their doc comments.

Model summary:
  * Prompt Builder  - a pure function from cocktail attributes to a
    prompt string, with the documented keyword lookup tables.
  * Provider Adapter - a descriptor with an availability flag and the
    outcome of the single outbound request it would make when attempted.
  * Fallback Orchestrator - first-success iteration over an ordered
    adapter list with a terminal default asset reference, recording an
    invocation log and an abstract elapsed-time count.
  * Frontend detail view - the effect/state logic of the CocktailDetail
    component embedded in CocktailHistory.jsx, as an explicit state
    machine.
-/

/-! ## Strings: case-insensitive substring matching

The documentation describes ingredient and description keywords as being
recognised by case-insensitive substring search.  `String.toLower` of
core Lean does not reduce in the kernel, so ASCII lowercasing is defined
directly on character lists. -/

/-- ASCII lowercasing of a single character, as Python's `str.lower`
behaves on the ASCII keyword tables used by the prompt builder. -/
def lowerChar (c : Char) : Char :=
  if 'A' ≤ c ∧ c ≤ 'Z' then Char.ofNat (c.toNat + 32) else c

/-- The character list of a string, lowercased. -/
def lowerData (s : String) : List Char := s.data.map lowerChar

/-- Does `needle` occur as a contiguous sublist of the haystack? -/
def subsearch (needle : List Char) : List Char → Bool
  | [] => needle.isPrefixOf []
  | c :: t => needle.isPrefixOf (c :: t) || subsearch needle t

/-- Case-insensitive substring test: `needle` occurs in `hay` up to
ASCII case. -/
def substrMatch (needle hay : String) : Bool :=
  subsearch (lowerData needle) (lowerData hay)

/-- Case-sensitive substring test (used to state "the built prompt
contains ..." claims). -/
def containsLit (needle hay : String) : Bool :=
  subsearch needle.data hay.data

/-! ## Data model -/

/-- Cocktail attributes consumed by the image-generation flow, from the
CocktailRecord data model: name, ordered ingredients, description and
the optional caller-supplied image prompt. -/
structure Cocktail where
  name : String
  ingredients : List String
  description : String
  image_prompt : Option String

/-- ProviderResult: success flag, asset reference when successful,
failure reason when not.  Transient, not persisted. -/
structure ProviderResult where
  success : Bool
  assetRef : Option String
  reason : Option String
deriving DecidableEq, Repr

/-! ## Prompt Builder

The lookup tables below are quoted verbatim in src/unnamed/part_001
(sections "Mapping des couleurs" and "Styles automatiques"); the entries
shown there are reproduced, the elided tails of the tables are omitted. -/

/-- Ingredient-keyword to colour/texture descriptor table, from the
color_map snippet in src/unnamed/part_001. -/
def color_map : List (String × String) :=
  [("rhum", "golden amber"),
   ("whisky", "deep amber"),
   ("vodka", "crystal clear"),
   ("gin", "clear with botanical hints"),
   ("tequila", "pale gold"),
   ("grenadine", "ruby red gradient")]

/-- Description-keyword to setting descriptor table, from the
style_keywords snippet in src/unnamed/part_001. -/
def style_keywords : List (String × String) :=
  [("tropical", "tropical paradise setting with palm leaves"),
   ("summer", "bright summer atmosphere"),
   ("winter", "cozy winter ambiance"),
   ("elegant", "sophisticated upscale bar")]

/-- Fixed suffix of quality qualifiers appended to every automatically
built prompt. -/
def quality_suffix : String :=
  "professional photography, high quality, detailed, 8k resolution, studio lighting, elegant presentation"

/-- Colour descriptors of the ingredient keywords recognised (by
case-insensitive substring search) in some ingredient of the list, in
table order. -/
def matchedColors (ingredients : List String) : List String :=
  color_map.filterMap fun kv =>
    if ingredients.any (fun ing => substrMatch kv.1 ing) then some kv.2 else none

/-- Setting descriptors of the description keywords recognised (by
case-insensitive substring search) in the description, in table order. -/
def matchedStyles (description : String) : List String :=
  style_keywords.filterMap fun kv =>
    if substrMatch kv.1 description then some kv.2 else none

/-- Comma-join of a list of fragments. -/
def joinComma : List String → String
  | [] => ""
  | [x] => x
  | x :: y :: ys => x ++ ", " ++ joinComma (y :: ys)

/-- Modelled from the spec: the automatic branch of the Prompt Builder
(the Python builder itself is not under src/; src/unnamed/part_001 only
documents it).  Concatenates, in order: cocktail name, matched colour
descriptors, matched setting descriptors, and the fixed quality suffix. -/
def autoPrompt (c : Cocktail) : String :=
  joinComma (c.name ::
    (matchedColors c.ingredients ++ matchedStyles c.description ++ [quality_suffix]))

/-- Modelled from the spec: the Prompt Builder.  A caller-supplied
non-empty image_prompt wins verbatim (Python truthiness: an absent or
empty prompt falls through to automatic construction). -/
def build_prompt (c : Cocktail) : String :=
  match c.image_prompt with
  | some p => if p = "" then autoPrompt c else p
  | none => autoPrompt c

/-! ## Provider Adapter and Fallback Orchestrator

The two-service chain is quoted verbatim in src/unnamed/part_001 (the
generate_image method: try Stability AI if available, fall back to
DynaPictures, else return the bundled default image).  The spec states
the same policy for an arbitrary ordered adapter list, so the model here
is a list fold; the quoted two-adapter method is an instance of it. -/

/-- Provider Adapter descriptor: name, availability predicate outcome
(credential configured and non-placeholder), the outcome of the single
outbound request the adapter would make when attempted (asset reference
on success, reason string on failure), and the abstract duration of that
request.  Modelled from the spec: the concrete adapter classes are not
under src/. -/
structure Adapter where
  name : String
  available : Bool
  callOutcome : Except String String
  latency : Nat

/-- Adapter invocation: the resulting ProviderResult paired with whether
an outbound network request was attempted.  An unavailable adapter
short-circuits with reason "unavailable" and attempts no request. -/
def Adapter.attempt (a : Adapter) : ProviderResult × Bool :=
  if a.available then
    match a.callOutcome with
    | Except.ok ref => ({ success := true, assetRef := some ref, reason := none }, true)
    | Except.error r => ({ success := false, assetRef := none, reason := some r }, true)
  else
    ({ success := false, assetRef := none, reason := some "unavailable" }, false)

/-- The ProviderResult returned by one adapter invocation. -/
def Adapter.generate (a : Adapter) : ProviderResult := a.attempt.1

/-- Time consumed by one adapter invocation: the call latency when a
network request is attempted, nothing when the adapter short-circuits as
unavailable. -/
def Adapter.attemptTime (a : Adapter) : Nat :=
  if a.attempt.2 then a.latency else 0

/-- Does this adapter count as the successful one: available and its
single request yields an asset reference? -/
def Adapter.succeeds (a : Adapter) : Bool :=
  a.available &&
    match a.callOutcome with
    | Except.ok _ => true
    | Except.error _ => false

/-- Outcome of one orchestrator run: the returned asset reference, the
log of adapter invocations in order (name and recorded result), and the
total abstract time spent in adapter calls. -/
structure ChainRun where
  result : String
  log : List (String × ProviderResult)
  time : Nat
deriving DecidableEq, Repr

/-- The fallback orchestrator, from the generate_image method quoted in
src/unnamed/part_001, generalised per the spec to an ordered adapter
list: try each adapter in priority order, stop at the first success,
return the default asset reference when the list is exhausted. -/
def generate_image (defaultRef : String) : List Adapter → ChainRun
  | [] => { result := defaultRef, log := [], time := 0 }
  | a :: rest =>
    let r := a.generate
    if r.success then
      { result := r.assetRef.getD defaultRef, log := [(a.name, r)], time := a.attemptTime }
    else
      let c := generate_image defaultRef rest
      { result := c.result, log := (a.name, r) :: c.log, time := a.attemptTime + c.time }

/-- The default asset reference returned when every adapter fails, from
the generate_image snippet in src/unnamed/part_001. -/
def defaultAssetRef : String := "/default.webp"

/-! ## Frontend detail view

State machine of the CocktailDetail component embedded in
src/frontend/src/components/CocktailHistory.jsx: the mount effect either
displays the stored image_path, or (only when opened from the generator
with an image_prompt and no image generated yet) issues one generation
request, or shows the default image.  A successful response stores the
returned reference into the local record's image_path. -/

/-- Local state of the detail component together with the record field
it mutates: generatedImage and showDefault are component state,
imagePath is the cocktail record's image_path field. -/
structure DetailState where
  generatedImage : Option String
  showDefault : Bool
  imagePath : Option String
deriving DecidableEq, Repr

/-- Component state on first render: nothing generated, default hidden,
record's image_path as fetched. -/
def initialDetail (imagePath0 : Option String) : DetailState :=
  { generatedImage := none, showDefault := false, imagePath := imagePath0 }

/-- One run of the component's mount effect, from CocktailHistory.jsx
(embedded CocktailDetail, useEffect plus generateImage): `source` is the
component prop, `hasPrompt` whether the cocktail carries an
image_prompt, `hasId` whether it carries a truthy id (generateImage
returns early otherwise), and `outcome` the image_url of the backend
response when a request is issued (`none` when the response carries no
image_url).  Returns the new state and whether a generation request was
issued. -/
def effectStep (source : String) (hasPrompt hasId : Bool)
    (outcome : Option String) (s : DetailState) : DetailState × Bool :=
  match s.imagePath with
  | some p => ({ s with generatedImage := some p, showDefault := false }, false)
  | none =>
    if source = "generator" ∧ hasPrompt = true ∧ s.generatedImage = none then
      if hasId then
        match outcome with
        | some ref =>
          ({ generatedImage := some ref, showDefault := false, imagePath := some ref }, true)
        | none => ({ s with showDefault := true }, true)
      else (s, false)
    else ({ s with showDefault := true }, false)

/-- A sequence of mount-effect runs (the effect re-fires when
cocktail.id, cocktail.image_path or source change), each with the
outcome its request would get. -/
def runEffects (source : String) (hasPrompt hasId : Bool)
    (outcomes : List (Option String)) (s : DetailState) : DetailState :=
  outcomes.foldl (fun st o => (effectStep source hasPrompt hasId o st).1) s

/-- Number of effect runs along a trace that attach an asset reference
to the record's image_path field (field previously unset, set after). -/
def pathWrites (source : String) (hasPrompt hasId : Bool) :
    List (Option String) → DetailState → Nat
  | [], _ => 0
  | o :: os, s =>
    let s' := (effectStep source hasPrompt hasId o s).1
    (if s.imagePath = none ∧ s'.imagePath ≠ none then 1 else 0) +
      pathWrites source hasPrompt hasId os s'

/-! ## Helper lemmas -/

/-- A sublist occurrence in a suffix also occurs in the whole list. -/
theorem subsearch_append (n h2 h1 : List Char)
    (h : subsearch n h2 = true) : subsearch n (h1 ++ h2) = true := by
  induction h1 with
  | nil => simpa using h
  | cons c t ih =>
    simp only [List.cons_append, subsearch, Bool.or_eq_true]
    exact Or.inr ih

/-- A substring occurrence in a string also occurs after prepending. -/
theorem containsLit_append_right (needle s t : String)
    (h : containsLit needle t = true) : containsLit needle (s ++ t) = true := by
  obtain ⟨l⟩ := s
  exact subsearch_append _ _ l h

/-- Appending an ingredient that matches no colour-table keyword leaves
the matched colour descriptors unchanged. -/
theorem matchedColors_append_unmatched (l : List String) (ing : String)
    (h : ∀ kv ∈ color_map, substrMatch kv.1 ing = false) :
    matchedColors (l ++ [ing]) = matchedColors l := by
  unfold matchedColors
  apply List.filterMap_congr
  intro kv hkv
  simp [List.any_append, h kv hkv]

/-- A description matching no style-table keyword yields no setting
descriptors. -/
theorem matchedStyles_unmatched (d : String)
    (h : ∀ kv ∈ style_keywords, substrMatch kv.1 d = false) :
    matchedStyles d = [] := by
  unfold matchedStyles
  rw [List.filterMap_eq_nil_iff]
  intro kv hkv
  simp [h kv hkv]

/-! ## Claim theorems: Prompt Builder -/

/-- C3: for every cocktail carrying a non-empty explicit image_prompt,
the Prompt Builder returns that prompt string verbatim, regardless of
the cocktail's name, ingredients or description. -/
theorem build_prompt_override_verbatim (c : Cocktail) (p : String)
    (hp : c.image_prompt = some p) (hne : p ≠ "") :
    build_prompt c = p := by
  simp [build_prompt, hp, hne]

/-- Witness for C3 at a concrete cocktail whose attributes would
otherwise contribute descriptors. -/
theorem build_prompt_override_verbatim_witness :
    build_prompt
      { name := "Sunset Tropical", ingredients := ["4 cl rhum blanc"],
        description := "tropical sunset",
        image_prompt := some "my custom prompt" } = "my custom prompt" :=
  build_prompt_override_verbatim _ "my custom prompt" rfl (by decide)

/-- C4: on ingredients ["4 cl rhum blanc", "jus d'ananas"] and
description "tropical sunset" with no explicit image_prompt, the built
prompt contains the substrings "golden amber" (rum mapping) and
"tropical paradise setting with palm leaves" (tropical mapping),
whatever the cocktail name. -/
theorem build_prompt_rhum_tropical (nm : String) :
    containsLit "golden amber"
      (build_prompt { name := nm, ingredients := ["4 cl rhum blanc", "jus d\x27ananas"],
                      description := "tropical sunset", image_prompt := none }) = true ∧
    containsLit "tropical paradise setting with palm leaves"
      (build_prompt { name := nm, ingredients := ["4 cl rhum blanc", "jus d\x27ananas"],
                      description := "tropical sunset", image_prompt := none }) = true := by
  have hc : matchedColors ["4 cl rhum blanc", "jus d\x27ananas"] = ["golden amber"] := by
    decide
  have hs : matchedStyles "tropical sunset" =
      ["tropical paradise setting with palm leaves"] := by
    decide
  have hstep : build_prompt { name := nm,
                              ingredients := ["4 cl rhum blanc", "jus d\x27ananas"],
                              description := "tropical sunset",
                              image_prompt := none } =
      nm ++ ", " ++ joinComma ["golden amber",
        "tropical paradise setting with palm leaves", quality_suffix] := by
    simp [build_prompt, autoPrompt, hc, hs, joinComma]
  rw [hstep]
  constructor
  · exact containsLit_append_right _ _ _ (by decide)
  · exact containsLit_append_right _ _ _ (by decide)

/-- C5: the Prompt Builder is deterministic and pure; two calls with
identical name, ingredient list and description (no explicit
image_prompt, same fixed lookup tables) return identical prompt
strings.  Side-effect freedom is inherent to the functional embedding:
build_prompt is a total function of its arguments. -/
theorem build_prompt_deterministic (c₁ c₂ : Cocktail)
    (h₁ : c₁.image_prompt = none) (h₂ : c₂.image_prompt = none)
    (hn : c₁.name = c₂.name) (hi : c₁.ingredients = c₂.ingredients)
    (hd : c₁.description = c₂.description) :
    build_prompt c₁ = build_prompt c₂ := by
  cases c₁
  cases c₂
  simp only at h₁ h₂ hn hi hd
  subst h₁ h₂ hn hi hd
  rfl

/-- Witness for C5 at two equal concrete cocktails. -/
theorem build_prompt_deterministic_witness :
    build_prompt { name := "Mojito", ingredients := ["rhum"],
                   description := "summer", image_prompt := none } =
    build_prompt { name := "Mojito", ingredients := ["rhum"],
                   description := "summer", image_prompt := none } :=
  build_prompt_deterministic _ _ rfl rfl rfl rfl rfl

/-- C6: for every cocktail without an explicit image_prompt, the built
prompt is the in-order concatenation of the cocktail name, the colour
descriptors of matched ingredient keywords, the setting descriptors of
matched description keywords and the fixed quality-qualifier suffix;
an ingredient matching no colour-table entry contributes nothing to the
prompt, and a description matching no style-table entry contributes no
setting descriptor (and the builder is total, so no error arises). -/
theorem build_prompt_concatenation (c : Cocktail) (h : c.image_prompt = none) :
    build_prompt c =
      joinComma (c.name ::
        (matchedColors c.ingredients ++ matchedStyles c.description ++ [quality_suffix])) ∧
    (∀ ing, (∀ kv ∈ color_map, substrMatch kv.1 ing = false) →
      build_prompt { c with ingredients := c.ingredients ++ [ing] } = build_prompt c) ∧
    (∀ d, (∀ kv ∈ style_keywords, substrMatch kv.1 d = false) → matchedStyles d = []) := by
  refine ⟨by simp [build_prompt, h, autoPrompt], ?_, matchedStyles_unmatched⟩
  intro ing hing
  simp [build_prompt, h, autoPrompt, matchedColors_append_unmatched _ _ hing]

/-- Witness for C6 at a concrete cocktail, with the unmatched extra
ingredient "sucre" and unmatched description "smoky". -/
theorem build_prompt_concatenation_witness :
    build_prompt { name := "Dark Night", ingredients := ["whisky"],
                   description := "cozy", image_prompt := none } =
      joinComma ("Dark Night" ::
        (matchedColors ["whisky"] ++ matchedStyles "cozy" ++ [quality_suffix])) ∧
    build_prompt { name := "Dark Night", ingredients := ["whisky", "sucre"],
                   description := "cozy", image_prompt := none } =
      build_prompt { name := "Dark Night", ingredients := ["whisky"],
                     description := "cozy", image_prompt := none } ∧
    matchedStyles "smoky" = [] := by
  have h := build_prompt_concatenation
    { name := "Dark Night", ingredients := ["whisky"],
      description := "cozy", image_prompt := none } rfl
  exact ⟨h.1, h.2.1 "sucre" (by decide), h.2.2 "smoky" (by decide)⟩

/-! ## Claim theorems: Fallback Orchestrator -/

/-- Case analysis of one adapter invocation: a succeeding adapter yields
a successful ProviderResult carrying its asset reference; a
non-succeeding one yields a failure result. -/
theorem attempt_cases (a : Adapter) :
    (a.succeeds = true → ∃ ref, a.callOutcome = Except.ok ref ∧
      a.generate = { success := true, assetRef := some ref, reason := none }) ∧
    (a.succeeds = false → a.generate.success = false) := by
  rcases a with ⟨n, av, co, lat⟩
  cases av <;> cases co <;>
    simp [Adapter.succeeds, Adapter.generate, Adapter.attempt]

/-- C1: for every adapter list (the empty list included) and every
default reference, if every adapter is unavailable or fails then the
orchestrator returns the default asset reference; and unconditionally
the orchestrator is a total function whose only outcomes are the default
reference or the asset reference of some available adapter whose request
succeeded — it never raises an error of its own. -/
theorem generate_image_outcomes (d : String) (adapters : List Adapter) :
    ((∀ a ∈ adapters, a.succeeds = false) → (generate_image d adapters).result = d) ∧
    ((generate_image d adapters).result = d ∨
      ∃ a ∈ adapters, ∃ ref, a.available = true ∧ a.callOutcome = Except.ok ref ∧
        (generate_image d adapters).result = ref) := by
  induction adapters with
  | nil => exact ⟨fun _ => rfl, Or.inl rfl⟩
  | cons a rest ih =>
    by_cases hs : a.succeeds = true
    · obtain ⟨ref, hco, hgen⟩ := (attempt_cases a).1 hs
      constructor
      · intro hall
        exact absurd hs (by simp [hall a (List.mem_cons_self a rest)])
      · refine Or.inr ⟨a, List.mem_cons_self a rest, ref, ?_, hco, ?_⟩
        · rcases a with ⟨n, av, co, lat⟩
          cases av
          · simp [Adapter.succeeds] at hs
          · rfl
        · simp [generate_image, hgen]
    · have hfail := (attempt_cases a).2 (by simpa using hs)
      have hstep : generate_image d (a :: rest) =
          { result := (generate_image d rest).result,
            log := (a.name, a.generate) :: (generate_image d rest).log,
            time := a.attemptTime + (generate_image d rest).time } := by
        simp [generate_image, hfail]
      constructor
      · intro hall
        rw [hstep]
        exact ih.1 fun x hx => hall x (List.mem_cons_of_mem a hx)
      · rw [hstep]
        rcases ih.2 with h | ⟨x, hx, ref, hav, hco, hres⟩
        · exact Or.inl h
        · exact Or.inr ⟨x, List.mem_cons_of_mem a hx, ref, hav, hco, hres⟩

/-- Witness for C1: the empty adapter list and a chain of an
unavailable plus a failing adapter both return the default reference. -/
theorem generate_image_outcomes_witness :
    (generate_image "/default.webp" []).result = "/default.webp" ∧
    (generate_image "/default.webp"
      [{ name := "CloudA", available := false, callOutcome := Except.error "unavailable", latency := 1 },
       { name := "CloudB", available := true, callOutcome := Except.error "transport", latency := 2 }]).result
      = "/default.webp" :=
  ⟨(generate_image_outcomes "/default.webp" []).1 (by decide),
   (generate_image_outcomes "/default.webp" _).1 (by decide)⟩

/-- C2: if adapter k (0-indexed here) is the first adapter in the list
that is available and whose request succeeds, the orchestrator returns
adapter k's asset reference, its invocation log records exactly the
adapters before k (each once, with its unavailability or failure result)
followed by adapter k's success, in list order, and no adapter after k
appears in the log. -/
theorem generate_image_first_success (d : String) (adapters : List Adapter) (k : Nat)
    (hk : k < adapters.length)
    (hsucc : (adapters.get ⟨k, hk⟩).succeeds = true)
    (hprev : ∀ x ∈ adapters.take k, x.succeeds = false) :
    ∃ ref, (adapters.get ⟨k, hk⟩).callOutcome = Except.ok ref ∧
      (generate_image d adapters).result = ref ∧
      (generate_image d adapters).log =
        (adapters.take (k+1)).map (fun a => (a.name, a.generate)) := by
  induction adapters generalizing k with
  | nil => exact absurd hk (by simp)
  | cons a rest ih =>
    cases k with
    | zero =>
      obtain ⟨ref, hco, hgen⟩ := (attempt_cases a).1 hsucc
      refine ⟨ref, hco, ?_, ?_⟩ <;> simp [generate_image, hgen]
    | succ j =>
      have h0 : a.succeeds = false := hprev a (by simp [List.take_succ_cons])
      have hfail := (attempt_cases a).2 h0
      have hj' : j < rest.length := Nat.lt_of_succ_lt_succ hk
      have hsucc' : (rest.get ⟨j, hj'⟩).succeeds = true := hsucc
      have hprev' : ∀ x ∈ rest.take j, x.succeeds = false := fun x hx =>
        hprev x (by simp [List.take_succ_cons, hx])
      obtain ⟨ref, hco, hres, hlog⟩ := ih j hj' hsucc' hprev'
      refine ⟨ref, hco, ?_, ?_⟩
      · simpa [generate_image, hfail] using hres
      · simpa [generate_image, hfail] using hlog

/-- Witness for C2: the spec scenario CloudA (unavailable), CloudB
(available, transport error), LocalC (available, succeeds with
"/img/42.png"); the third adapter wins and the log records the two
earlier attempts once each, in order. -/
theorem generate_image_first_success_witness :
    ∃ ref,
      (([{ name := "CloudA", available := false, callOutcome := Except.error "unavailable", latency := 1 },
         { name := "CloudB", available := true, callOutcome := Except.error "transport", latency := 1 },
         { name := "LocalC", available := true, callOutcome := Except.ok "/img/42.png", latency := 1 }] :
          List Adapter).get ⟨2, by decide⟩).callOutcome = Except.ok ref ∧
      (generate_image "/default.webp"
        [{ name := "CloudA", available := false, callOutcome := Except.error "unavailable", latency := 1 },
         { name := "CloudB", available := true, callOutcome := Except.error "transport", latency := 1 },
         { name := "LocalC", available := true, callOutcome := Except.ok "/img/42.png", latency := 1 }]).result = ref ∧
      (generate_image "/default.webp"
        [{ name := "CloudA", available := false, callOutcome := Except.error "unavailable", latency := 1 },
         { name := "CloudB", available := true, callOutcome := Except.error "transport", latency := 1 },
         { name := "LocalC", available := true, callOutcome := Except.ok "/img/42.png", latency := 1 }]).log =
        (([{ name := "CloudA", available := false, callOutcome := Except.error "unavailable", latency := 1 },
           { name := "CloudB", available := true, callOutcome := Except.error "transport", latency := 1 },
           { name := "LocalC", available := true, callOutcome := Except.ok "/img/42.png", latency := 1 }] :
            List Adapter).take 3).map (fun a => (a.name, a.generate)) :=
  generate_image_first_success "/default.webp" _ 2 (by decide) (by decide) (by decide)

/-- C7: an adapter whose availability predicate is false returns a
ProviderResult failure with reason "unavailable" immediately, and no
outbound network request is attempted. -/
theorem adapter_unavailable_no_network (a : Adapter) (h : a.available = false) :
    a.attempt = ({ success := false, assetRef := none, reason := some "unavailable" }, false) := by
  simp [Adapter.attempt, h]

/-- Witness for C7 at a concrete unconfigured adapter. -/
theorem adapter_unavailable_no_network_witness :
    Adapter.attempt
        { name := "StabilityAI", available := false,
          callOutcome := Except.ok "/cocktail_123.jpeg", latency := 30 } =
      ({ success := false, assetRef := none, reason := some "unavailable" }, false) :=
  adapter_unavailable_no_network _ rfl

/-- Time spent in one adapter invocation never exceeds its call
latency. -/
theorem attemptTime_le_latency (a : Adapter) : a.attemptTime ≤ a.latency := by
  unfold Adapter.attemptTime
  split
  · exact Nat.le_refl _
  · exact Nat.zero_le _

/-- C9: when every configured adapter's call latency is bounded by the
per-adapter timeout T, one orchestrator run spends at most
(number of adapters) × T in adapter calls, so the chain cannot block
indefinitely. -/
theorem generate_image_time_bound (d : String) (T : Nat) (adapters : List Adapter)
    (h : ∀ a ∈ adapters, a.latency ≤ T) :
    (generate_image d adapters).time ≤ adapters.length * T := by
  induction adapters with
  | nil => simp [generate_image]
  | cons a rest ih =>
    have ha : a.attemptTime ≤ T :=
      le_trans (attemptTime_le_latency a) (h a (List.mem_cons_self a rest))
    have ih' := ih fun x hx => h x (List.mem_cons_of_mem a hx)
    rw [List.length_cons, Nat.succ_mul]
    by_cases hs : a.generate.success = true
    · have : (generate_image d (a :: rest)).time = a.attemptTime := by
        simp [generate_image, hs]
      rw [this]
      exact le_trans ha (Nat.le_add_left T _)
    · have : (generate_image d (a :: rest)).time =
          a.attemptTime + (generate_image d rest).time := by
        simp [generate_image, hs]
      rw [this, Nat.add_comm]
      exact Nat.add_le_add ih' ha

/-- Witness for C9: two adapters with latencies 30 and 12 under timeout
30 stay within 2 × 30. -/
theorem generate_image_time_bound_witness :
    (generate_image "/default.webp"
      [{ name := "CloudA", available := true, callOutcome := Except.error "transport", latency := 30 },
       { name := "LocalB", available := true, callOutcome := Except.ok "/img/1.png", latency := 12 }]).time ≤
      ([{ name := "CloudA", available := true, callOutcome := Except.error "transport", latency := 30 },
        { name := "LocalB", available := true, callOutcome := Except.ok "/img/1.png", latency := 12 }] :
        List Adapter).length * 30 :=
  generate_image_time_bound "/default.webp" 30 _ (by decide)

/-! ## Claim theorems: frontend detail view -/

/-- An already-stored image_path is never changed by an effect run. -/
theorem effectStep_imagePath_some (source : String) (hp hid : Bool)
    (o : Option String) (s : DetailState) (p : String) (h : s.imagePath = some p) :
    (effectStep source hp hid o s).1.imagePath = some p := by
  simp [effectStep, h]

/-- An effect run whose request gets no image_url (or issues no request)
leaves the record's image_path unchanged. -/
theorem effectStep_none_outcome (source : String) (hp hid : Bool) (s : DetailState) :
    (effectStep source hp hid none s).1.imagePath = s.imagePath := by
  unfold effectStep
  cases h : s.imagePath with
  | some p => simp [h]
  | none =>
    cases hid <;> split <;> (try split) <;> simp [h]

/-- An effect run on a record with an id but no stored image and a
failed (or absent) generation shows the default image. -/
theorem effectStep_fail_shows_default (source : String) (hp : Bool) (s : DetailState)
    (h : s.imagePath = none) :
    (effectStep source hp true none s).1.showDefault = true := by
  unfold effectStep
  simp [h]
  split <;> simp

/-- Once image_path is set, no later effect run writes it again. -/
theorem pathWrites_zero_of_set (source : String) (hp hid : Bool)
    (os : List (Option String)) (s : DetailState) (h : s.imagePath ≠ none) :
    pathWrites source hp hid os s = 0 := by
  induction os generalizing s with
  | nil => rfl
  | cons o os ih =>
    obtain ⟨p, hp'⟩ := Option.ne_none_iff_exists'.mp h
    have hkeep := effectStep_imagePath_some source hp hid o s p hp'
    have h2 := ih (effectStep source hp hid o s).1 (by simp [hkeep])
    simp [pathWrites, hp', h2]

/-- C8: along every sequence of effect runs of the detail component, an
asset reference is attached to the record's image_path field at most
once; and when the record has an id, no stored image, and every issued
generation attempt fails (the response carries no image_url, as when all
adapters fail), the component ends up displaying the default image while
image_path is still unset, so a later retry remains possible. -/
theorem image_path_write_once (source : String) (hp : Bool) (hid : Bool)
    (outcomes : List (Option String)) (s : DetailState) :
    pathWrites source hp hid outcomes s ≤ 1 ∧
    ((∀ o ∈ outcomes, o = none) → outcomes ≠ [] → hid = true →
      (runEffects source hp true outcomes (initialDetail none)).showDefault = true ∧
      (runEffects source hp true outcomes (initialDetail none)).imagePath = none) := by
  constructor
  · induction outcomes generalizing s with
    | nil => exact Nat.zero_le 1
    | cons o os ih =>
      by_cases hset : (effectStep source hp hid o s).1.imagePath = none
      · have : (if s.imagePath = none ∧ (effectStep source hp hid o s).1.imagePath ≠ none
            then 1 else 0) = 0 := by simp [hset]
        simp only [pathWrites, this, Nat.zero_add]
        exact ih _
      · have hz := pathWrites_zero_of_set source hp hid os _ hset
        simp only [pathWrites, hz, Nat.add_zero]
        split <;> simp
  · intro hall hne _
    clear s
    have key : ∀ (os : List (Option String)) (s : DetailState),
        (∀ o ∈ os, o = none) → os ≠ [] → s.imagePath = none →
        (runEffects source hp true os s).showDefault = true ∧
        (runEffects source hp true os s).imagePath = none := by
      intro os
      induction os with
      | nil => intro s _ hne' _; exact absurd rfl hne'
      | cons o os ih =>
        intro s hall' _ hpath
        have ho : o = none := hall' o (List.mem_cons_self o os)
        subst ho
        have hkeep : (effectStep source hp true none s).1.imagePath = none := by
          rw [effectStep_none_outcome]; exact hpath
        cases os with
        | nil =>
          refine ⟨?_, ?_⟩
          · exact effectStep_fail_shows_default source hp s hpath
          · exact hkeep
        | cons o' os' =>
          exact ih _ (fun x hx => hall' x (List.mem_cons_of_mem _ hx)) (by simp) hkeep
    exact key outcomes (initialDetail none) hall hne rfl

/-- Witness for C8: a generator-opened record whose only generation
attempt fails keeps image_path unset, shows the default image, and the
trace performs no image_path write. -/
theorem image_path_write_once_witness :
    pathWrites "generator" true true [none] (initialDetail none) ≤ 1 ∧
    ((runEffects "generator" true true [none] (initialDetail none)).showDefault = true ∧
      (runEffects "generator" true true [none] (initialDetail none)).imagePath = none) :=
  ⟨(image_path_write_once "generator" true true [none] (initialDetail none)).1,
   (image_path_write_once "generator" true true [none] (initialDetail none)).2
     (by decide) (by decide) rfl⟩

/-- C10: in the detail component, an effect run issues a generation
request only when the record has no stored image_path, the component
was opened from the generator, the cocktail has an image_prompt, and no
image has been generated yet; a record with a stored image_path is
displayed as-is with no request; and a record opened from the history
view without a stored image_path gets the default image with no request
issued. -/
theorem detail_effect_request_policy (source : String) (hp hid : Bool)
    (o : Option String) (s : DetailState) :
    ((effectStep source hp hid o s).2 = true →
      s.imagePath = none ∧ source = "generator" ∧ hp = true ∧ s.generatedImage = none) ∧
    (∀ p, s.imagePath = some p →
      effectStep source hp hid o s =
        ({ s with generatedImage := some p, showDefault := false }, false)) ∧
    (source = "history" → s.imagePath = none →
      effectStep source hp hid o s = ({ s with showDefault := true }, false)) := by
  refine ⟨?_, ?_, ?_⟩
  · intro hreq
    cases hpath : s.imagePath with
    | some p => simp [effectStep, hpath] at hreq
    | none =>
      refine ⟨rfl, ?_⟩
      by_cases hg : source = "generator" ∧ hp = true ∧ s.generatedImage = none
      · exact hg
      · simp [effectStep, hpath, hg] at hreq
  · intro p hpath
    simp [effectStep, hpath]
  · intro hsrc hpath
    subst hsrc
    have hg : ¬("history" = "generator" ∧ hp = true ∧ s.generatedImage = none) :=
      fun hcon => absurd hcon.1 (by decide)
    simp [effectStep, hpath, hg]

/-- Witness for C10: a record with a stored image_path is displayed
without a request, and a history-opened record without one shows the
default image without a request. -/
theorem detail_effect_request_policy_witness :
    effectStep "generator" true true (some "/img/9.png")
        { generatedImage := none, showDefault := false, imagePath := some "/img/7.png" } =
      ({ generatedImage := some "/img/7.png", showDefault := false,
         imagePath := some "/img/7.png" }, false) ∧
    effectStep "history" true true none (initialDetail none) =
      ({ generatedImage := none, showDefault := true, imagePath := none }, false) :=
  ⟨(detail_effect_request_policy "generator" true true (some "/img/9.png") _).2.1
      "/img/7.png" rfl,
   (detail_effect_request_policy "history" true true none (initialDetail none)).2.2 rfl rfl⟩

/-- Witness for C4 at the concrete name "Sunset Tropical". -/
theorem build_prompt_rhum_tropical_witness :
    containsLit "golden amber"
      (build_prompt { name := "Sunset Tropical",
                      ingredients := ["4 cl rhum blanc", "jus d\x27ananas"],
                      description := "tropical sunset", image_prompt := none }) = true ∧
    containsLit "tropical paradise setting with palm leaves"
      (build_prompt { name := "Sunset Tropical",
                      ingredients := ["4 cl rhum blanc", "jus d\x27ananas"],
                      description := "tropical sunset", image_prompt := none }) = true :=
  build_prompt_rhum_tropical "Sunset Tropical"
